import Mathlib

/-!
# CarDetails page: image-list derivation, loader and gallery/lightbox controller

A shallow embedding of `src/pages/CarDetails.jsx`.

* `JSValue` models the JavaScript values the component handles: everything the
  loader stores comes out of `res.json()`, so it is a JSON value, or `undefined`
  when a property is missing.
* `getCarImages` is the function of the same name (lines 46-60).
* `loadCar` is the body of the fetch effect (lines 64-84).
* `step` is the page as an event-driven state machine: one event handler runs,
  then React re-renders, which mounts or unmounts the `Lightbox` component
  (lines 232-238, 256-310).  The `[images]` reset effect (lines 89-91) runs
  after the render that changed `images` has been committed, so it is an event
  of its own, and the state in between is a state of the machine.
-/

namespace CarDetails

/-! ## JavaScript values -/

/-- A JavaScript value as the component can observe it.  Numbers only matter
through `typeof`, truthiness and their decimal rendering, so they are integers. -/
inductive JSValue where
  | undefined : JSValue
  | null : JSValue
  | bool (b : Bool) : JSValue
  | num (n : Int) : JSValue
  | str (s : String) : JSValue
  | arr (xs : List JSValue) : JSValue
  | obj (fields : List (String × JSValue)) : JSValue

namespace JSValue

/-- JavaScript `ToBoolean`: `undefined`, `null`, `false`, `0` and `""` are falsy. -/
def truthy : JSValue → Bool
  | undefined => false
  | null => false
  | bool b => b
  | num n => n != 0
  | str s => s != ""
  | arr _ => true
  | obj _ => true

/-- The test `typeof v === "string"`. -/
def isString : JSValue → Bool
  | str _ => true
  | _ => false

/-- Own-property lookup in an object's property list. -/
def lookup (key : String) : List (String × JSValue) → JSValue
  | [] => undefined
  | (k, v) :: rest => if k = key then v else lookup key rest

/-- Property read `v.key` on a value that is neither `null` nor `undefined`
(reading from those throws, see `readProp`).  Only plain objects carry the
properties the component reads (`images`, `imageUrl`, `success`, `error`,
`data`); on primitives and arrays these names are not defined. -/
def getProp (v : JSValue) (key : String) : JSValue :=
  match v with
  | obj fields => lookup key fields
  | _ => undefined

/-- The comparison `SameValueZero` used by `Array.prototype.includes`.  Arrays
and objects compare by reference; two values that come from different places
of a parsed payload are never the same reference. -/
def sameValueZero : JSValue → JSValue → Bool
  | undefined, undefined => true
  | null, null => true
  | bool a, bool b => a == b
  | num a, num b => a == b
  | str a, str b => a == b
  | _, _ => false

/-- The call `xs.includes(v)`. -/
def includes (xs : List JSValue) (v : JSValue) : Bool :=
  xs.any (fun x => sameValueZero x v)

end JSValue

open JSValue

/-! ## Fallback images -/

/-- The constant `PLACEHOLDER_CAR_IMAGE` (line 19). -/
def PLACEHOLDER_CAR_IMAGE : String :=
  "data:image/svg+xml,%3Csvg xmlns='http://www.w3.org/2000/svg' width='800' height='500' viewBox='0 0 800 500'%3E%3Crect width='800' height='500' fill='%23f3f4f6'/%3E%3Ctext x='50%25' y='50%25' dominant-baseline='middle' text-anchor='middle' font-family='Arial' font-size='20' fill='%236b7280'%3ECar Image%3C/text%3E%3C/svg%3E"

/-! ## Image-list derivation -/

/-- The string entries of `car.images`: `[]` unless `Array.isArray(car.images)`,
and then `car.images.filter((i) => typeof i === "string")` (lines 49-53). -/
def stringImages (car : JSValue) : List JSValue :=
  match getProp car "images" with
  | arr xs => xs.filter isString
  | _ => []

/-- The function `getCarImages` (lines 46-60). -/
def getCarImages (car : JSValue) : List JSValue :=
  if !car.truthy then [str PLACEHOLDER_CAR_IMAGE]
  else
    let imgs := stringImages car
    let imgs :=
      if (getProp car "imageUrl").truthy && !includes imgs (getProp car "imageUrl")
      then getProp car "imageUrl" :: imgs
      else imgs
    if imgs.length != 0 then imgs else [str PLACEHOLDER_CAR_IMAGE]

/-- The list the component renders, `useMemo(() => getCarImages(car), [car])`
(line 86), and its `length` as the number the handlers compute with. -/
def imageCount (car : JSValue) : Int :=
  ((getCarImages car).length : Int)

/-! ## Index arithmetic of the slider and the lightbox -/

/-- The expression `(i + 1) % images.length` of the right arrows (lines 166, 300)
and of `ArrowRight` (line 263); `%` is the truncating remainder. -/
def next (N i : Int) : Int :=
  (i + 1).tmod N

/-- The expression `(i - 1 + images.length) % images.length` of the left arrows
(lines 156, 291) and of `ArrowLeft` (line 265). -/
def prev (N i : Int) : Int :=
  (i - 1 + N).tmod N

/-! ## The loader -/

/-- What the JavaScript engine contributes to `loadCar` besides the source text. -/
structure Runtime where
  /-- The `message` of the `TypeError` raised by reading property `key` of
  `null` or `undefined`. -/
  nullReadMessage : String → String
  /-- The `message` of `new Error(v)` for a value `v` that is not a string:
  the engine's `ToString(v)`. -/
  coerceMessage : JSValue → String

/-- The parts of a `fetch` response that `loadCar` reads: `res.ok`, and the
outcome of `await res.json()`, which is the parsed body or the message of the
error it rejects with. -/
structure Response where
  ok : Bool
  json : Except String JSValue

/-- Property read `v.key` as an operation that can throw. -/
def readProp (rt : Runtime) (v : JSValue) (key : String) : Except String JSValue :=
  match v with
  | null => .error (rt.nullReadMessage key)
  | undefined => .error (rt.nullReadMessage key)
  | v => .ok (getProp v key)

/-- The `message` of `new Error(v)`. -/
def errorMessage (rt : Runtime) (v : JSValue) : String :=
  match v with
  | str s => s
  | v => rt.coerceMessage v

/-- The `try` block of `loadCar` (lines 66-75) after `setLoading(true)`:
`.ok d` when it reaches `setCar(d)`, `.error m` when it throws an error whose
`message` is `m`.  The argument is the outcome of `await fetch(...)`: the
response, or the message of the error it rejects with. -/
def loadCar (rt : Runtime) (fetched : Except String Response) : Except String JSValue := do
  let res ← fetched
  let data ← res.json
  let failed ←
    if !res.ok then pure true
    else do
      let success ← readProp rt data "success"
      pure (!success.truthy)
  if failed then
    let error ← readProp rt data "error"
    throw (errorMessage rt (if error.truthy then error else str "Failed to load car"))
  readProp rt data "data"

/-! ## The page as a state machine -/

/-- The `lightbox` state of `CarDetails` (lines 39-42). -/
structure LightboxState where
  isOpen : Bool
  index : Int

/-- The state of the page: the five `useState` cells of `CarDetails`
(lines 31-42); while a `Lightbox` is mounted, its own `index` cell (line 257);
and whether the effect of lines 89-91 is scheduled: a render in which `images`
changed has been committed and `setActiveIndex(0)` has not run yet. -/
structure PageState where
  car : JSValue
  loading : Bool
  error : String
  activeIndex : Int
  lightbox : LightboxState
  lightboxIndex : Option Int
  resetPending : Bool

/-- The first render: the initial values of the `useState` cells, with the
effects of the first render still to run. -/
def init : PageState :=
  { car := null, loading := true, error := "", activeIndex := 0,
    lightbox := { isOpen := false, index := 0 }, lightboxIndex := none,
    resetPending := true }

/-- What `CarDetails` returns (lines 95-240). -/
inductive View where
  | loading : View
  | message (text : String) : View
  | detail : View

/-- The two early returns and the detail view. -/
def view (s : PageState) : View :=
  if s.loading then View.loading
  else if s.error != "" || !s.car.truthy then
    View.message (if s.error != "" then s.error else "Car not found")
  else View.detail

/-- Whether the detail view (slider, thumbnails, lightbox mount point) is rendered. -/
def showsDetail (s : PageState) : Bool :=
  match view s with
  | View.detail => true
  | _ => false

/-- The comparison `Object.is` by which React decides whether `car` changed;
on integers it coincides with `SameValueZero`. -/
def objectIs (a b : JSValue) : Bool :=
  sameValueZero a b

/-- What can happen to the page. -/
inductive Event where
  /-- The effect of lines 64-84 runs for a `carId`: `loadCar` up to its first `await`. -/
  | loadStart : Event
  /-- A pending `loadCar` resumes with the outcome of `fetch` and runs to its end. -/
  | loadFinish (fetched : Except String Response) : Event
  /-- The scheduled effect of lines 89-91 runs: `setActiveIndex(0)`. -/
  | resetEffect : Event
  /-- Click on the slider's left arrow (lines 153-162). -/
  | sliderPrev : Event
  /-- Click on the slider's right arrow (lines 164-171). -/
  | sliderNext : Event
  /-- Click on thumbnail `i` (line 188). -/
  | selectThumbnail (i : Nat) : Event
  /-- Click on the main image (lines 142-144). -/
  | openLightbox : Event
  /-- Click on the lightbox's left arrow (lines 289-296). -/
  | lightboxPrev : Event
  /-- Click on the lightbox's right arrow (lines 298-305). -/
  | lightboxNext : Event
  /-- Click on the lightbox's close button (lines 275-280). -/
  | lightboxClose : Event
  /-- A `keydown` on `window` (lines 260-266). -/
  | keydown (key : String) : Event

/-- The state updates of one event handler.  A handler only runs when the
element it is attached to is rendered.  React runs a scheduled effect before
the next render at the latest; here it may run at any later point, which only
adds states. -/
def handle (rt : Runtime) (s : PageState) : Event → PageState
  | Event.loadStart => { s with loading := true }
  | Event.loadFinish fetched =>
    match loadCar rt fetched with
    | .ok d =>
      -- `setCar(d)` and `setLoading(false)`: the render that follows is committed with
      -- the `images` of `d` and the `activeIndex` it had; when `car` changed, `images`
      -- changed, and the effect of lines 89-91 is scheduled
      { s with car := d, loading := false,
               resetPending := s.resetPending || !objectIs s.car d }
    | .error msg => { s with error := msg, loading := false }
  | Event.resetEffect =>
    if s.resetPending then { s with activeIndex := 0, resetPending := false } else s
  | Event.sliderPrev =>
    if showsDetail s && decide (imageCount s.car > 1) then
      { s with activeIndex := prev (imageCount s.car) s.activeIndex }
    else s
  | Event.sliderNext =>
    if showsDetail s && decide (imageCount s.car > 1) then
      { s with activeIndex := next (imageCount s.car) s.activeIndex }
    else s
  | Event.selectThumbnail i =>
    if showsDetail s && decide (imageCount s.car > 1) && decide ((i : Int) < imageCount s.car) then
      { s with activeIndex := (i : Int) }
    else s
  | Event.openLightbox =>
    if showsDetail s then { s with lightbox := { isOpen := true, index := s.activeIndex } }
    else s
  | Event.lightboxPrev =>
    match s.lightboxIndex with
    | some i =>
      if imageCount s.car > 1 then { s with lightboxIndex := some (prev (imageCount s.car) i) }
      else s
    | none => s
  | Event.lightboxNext =>
    match s.lightboxIndex with
    | some i =>
      if imageCount s.car > 1 then { s with lightboxIndex := some (next (imageCount s.car) i) }
      else s
    | none => s
  | Event.lightboxClose =>
    match s.lightboxIndex with
    | some _ => { s with lightbox := { isOpen := false, index := 0 } }
    | none => s
  | Event.keydown key =>
    match s.lightboxIndex with
    | some i =>
      if key = "Escape" then { s with lightbox := { isOpen := false, index := 0 } }
      else if key = "ArrowRight" then { s with lightboxIndex := some (next (imageCount s.car) i) }
      else if key = "ArrowLeft" then { s with lightboxIndex := some (prev (imageCount s.car) i) }
      else s
    | none => s

/-- The render after a handler: `Lightbox` is mounted exactly when the detail
view is rendered and `lightbox.open` holds (line 232).  A `Lightbox` that stays
mounted keeps its `index`; a newly mounted one starts at `startIndex`, which is
`lightbox.index` (lines 235, 257); an unmounted one loses its state. -/
def render (s : PageState) : PageState :=
  if showsDetail s && s.lightbox.isOpen then
    match s.lightboxIndex with
    | some _ => s
    | none => { s with lightboxIndex := some s.lightbox.index }
  else { s with lightboxIndex := none }

/-- One event: its handler, then the render. -/
def step (rt : Runtime) (s : PageState) (e : Event) : PageState :=
  render (handle rt s e)

/-- A sequence of events, from left to right. -/
def run (rt : Runtime) (s : PageState) (es : List Event) : PageState :=
  es.foldl (step rt) s

/-- The states the page can be in. -/
def Reachable (rt : Runtime) (s : PageState) : Prop :=
  ∃ es : List Event, s = run rt init es

/-- The gallery index is a valid index into the image list. -/
def GalleryInv (s : PageState) : Prop :=
  0 ≤ s.activeIndex ∧ s.activeIndex < imageCount s.car

/-- The gallery index is a valid index into the image list unless the reset
effect is still scheduled. -/
def SettledGalleryInv (s : PageState) : Prop :=
  s.resetPending = false → GalleryInv s

/-- The index a mounted lightbox displays is a valid index into the image list. -/
def LightboxInv (s : PageState) : Prop :=
  ∀ i : Int, s.lightboxIndex = some i → 0 ≤ i ∧ i < imageCount s.car

instance instDecidableGalleryInv (s : PageState) : Decidable (GalleryInv s) := by
  unfold GalleryInv
  exact inferInstance

instance instDecidableLightboxInv (s : PageState) : Decidable (LightboxInv s) :=
  match h : s.lightboxIndex with
  | none => isTrue (by
      intro i hi
      rw [h] at hi
      cases hi)
  | some j =>
    if hj : 0 ≤ j ∧ j < imageCount s.car then
      isTrue (by
        intro i hi
        rw [h] at hi
        cases hi
        exact hj)
    else isFalse (fun hall => hj (hall j h))

/-- The lightbox's navigation inputs: its two arrow buttons and the keys
`ArrowRight` and `ArrowLeft`. -/
def isLightboxNav : Event → Bool
  | Event.lightboxPrev => true
  | Event.lightboxNext => true
  | Event.keydown key => key = "ArrowRight" || key = "ArrowLeft"
  | _ => false

/-- The lightbox's closing inputs: its close button and the key `Escape`. -/
def isLightboxClose : Event → Bool
  | Event.lightboxClose => true
  | Event.keydown key => key = "Escape"
  | _ => false

/-- The lightbox is open over gallery index `a`: the detail view is rendered,
`lightbox.open` holds, a `Lightbox` is mounted, and `activeIndex` is `a`. -/
def LightboxOpenOver (a : Int) (s : PageState) : Prop :=
  showsDetail s = true ∧ s.lightbox.isOpen = true ∧ s.lightboxIndex.isSome = true ∧
    s.activeIndex = a

/-- The index stored in the `lightbox` state while it is open is a valid index
into the image list. -/
def LightboxStored (s : PageState) : Prop :=
  s.lightbox.isOpen = true → 0 ≤ s.lightbox.index ∧ s.lightbox.index < imageCount s.car

/-- Whether an event is the completion of a load. -/
def isLoadFinish : Event → Bool
  | Event.loadFinish _ => true
  | _ => false

/-! ## Sample inputs -/

/-- A runtime with messages in the style of V8. -/
def sampleRuntime : Runtime :=
  { nullReadMessage := fun key => "Cannot read properties of null (reading " ++ key ++ ")",
    coerceMessage := fun _ => "[object Object]" }

/-- A response with status 200 whose body is `{success: true, data: d}`. -/
def successResponse (d : JSValue) : Except String Response :=
  .ok { ok := true, json := .ok (obj [("success", bool true), ("data", d)]) }

/-- A response with status 404 whose body is `{success: false, error: "Not found"}`. -/
def notFoundResponse : Except String Response :=
  .ok { ok := false, json := .ok (obj [("success", bool false), ("error", str "Not found")]) }

/-- A response with status 200 whose body is not JSON. -/
def unparsableResponse : Except String Response :=
  .ok { ok := true, json := .error "Unexpected token < in JSON at position 0" }

/-- A record with four images. -/
def carWithFourImages : JSValue :=
  obj [("brand", str "Honda"), ("model", str "City"),
    ("images", arr [str "a.jpg", str "b.jpg", str "c.jpg", str "d.jpg"])]

/-- A record with one image. -/
def carWithOneImage : JSValue :=
  obj [("brand", str "Tata"), ("model", str "Nano"), ("imageUrl", str "z.jpg")]

/-- A page showing the four-image car with the third thumbnail selected. -/
def galleryAtThird : PageState :=
  run sampleRuntime init
    [Event.loadStart, Event.loadFinish (successResponse carWithFourImages),
      Event.resetEffect, Event.selectThumbnail 2]

/-- The four-image car is loaded, the slider steps back from the first image to
the last, the lightbox is opened there, and then the route changes to the
one-image car, which is loaded while `lightbox.open` is still true. -/
def staleLightboxTrace : List Event :=
  [Event.loadStart, Event.loadFinish (successResponse carWithFourImages),
    Event.resetEffect, Event.sliderPrev, Event.openLightbox,
    Event.loadStart, Event.loadFinish (successResponse carWithOneImage)]

/-- The four-image car is loaded, the slider steps back from the first image to
the last, and then the route changes to the one-image car: the trace ends with
the render that `setCar` causes, before the reset effect has run. -/
def staleGalleryTrace : List Event :=
  [Event.loadStart, Event.loadFinish (successResponse carWithFourImages),
    Event.resetEffect, Event.sliderPrev,
    Event.loadStart, Event.loadFinish (successResponse carWithOneImage)]

/-- The trace `staleGalleryTrace` followed by the reset effect. -/
def settledGalleryTrace : List Event :=
  staleGalleryTrace ++ [Event.resetEffect]

/-- The four-image car is loaded, then the route changes to a car the server
does not know. -/
def notFoundAfterLoadTrace : List Event :=
  [Event.loadStart, Event.loadFinish (successResponse carWithFourImages),
    Event.resetEffect, Event.loadStart, Event.loadFinish notFoundResponse]

/-! ## Facts about values and the image list -/

theorem isString_iff (v : JSValue) : v.isString = true ↔ ∃ s, v = str s := by
  cases v <;> simp [isString]

theorem stringImages_isString (car : JSValue) :
    ∀ x ∈ stringImages car, x.isString = true := by
  intro x hx
  unfold stringImages at hx
  split at hx
  · exact (List.mem_filter.mp hx).2
  · simp at hx

theorem sameValueZero_eq (a b : JSValue) (h : sameValueZero a b = true) : a = b := by
  cases a <;> cases b <;> simp_all [sameValueZero]

theorem sameValueZero_str_self (s : String) : sameValueZero (str s) (str s) = true := by
  simp [sameValueZero]

theorem not_mem_of_includes_false (xs : List JSValue) (v : JSValue)
    (hstr : ∀ x ∈ xs, x.isString = true) (h : includes xs v = false) : v ∉ xs := by
  intro hv
  obtain ⟨s, rfl⟩ := (isString_iff v).mp (hstr v hv)
  have : includes xs (str s) = true := by
    unfold includes
    exact List.any_eq_true.mpr ⟨str s, hv, sameValueZero_str_self s⟩
  rw [this] at h
  exact Bool.noConfusion h

theorem includes_map_str (imgs : List String) (u : String) :
    includes (imgs.map str) (str u) = decide (u ∈ imgs) := by
  induction imgs with
  | nil => simp [includes]
  | cons a rest ih =>
    simp only [includes, List.map_cons, List.any_cons] at ih ⊢
    rw [ih]
    by_cases h : a = u
    · simp [sameValueZero, h]
    · have h2 : ¬ u = a := fun e => h e.symm
      simp [sameValueZero, h, h2]

theorem filter_isString_map_str (imgs : List String) :
    (imgs.map str).filter isString = imgs.map str := by
  apply List.filter_eq_self.mpr
  intro x hx
  obtain ⟨s, _, rfl⟩ := List.mem_map.mp hx
  rfl

/-- The three ways `getCarImages` returns, as one case split. -/
theorem getCarImages_cases (car : JSValue) :
    getCarImages car = [str PLACEHOLDER_CAR_IMAGE] ∨
    (getCarImages car = stringImages car ∧ stringImages car ≠ []) ∨
    (getCarImages car = getProp car "imageUrl" :: stringImages car ∧
      (getProp car "imageUrl").truthy = true ∧
      includes (stringImages car) (getProp car "imageUrl") = false) := by
  unfold getCarImages
  by_cases hc : car.truthy = true
  · by_cases hu : (getProp car "imageUrl").truthy = true
    · by_cases hi : includes (stringImages car) (getProp car "imageUrl") = true
      · by_cases hl : stringImages car = []
        · rw [hl] at hi
          simp [includes] at hi
        · simp [hc, hu, hi, hl]
      · simp at hi
        simp [hc, hu, hi]
    · by_cases hl : stringImages car = []
      · simp [hc, hu, hl]
      · simp [hc, hu, hl]
  · simp [hc]

theorem getCarImages_ne_nil (car : JSValue) : getCarImages car ≠ [] := by
  rcases getCarImages_cases car with h | ⟨h, hne⟩ | ⟨h, _, _⟩
  · rw [h]; simp
  · rw [h]; exact hne
  · rw [h]; simp

theorem imageCount_pos (car : JSValue) : 0 < imageCount car := by
  unfold imageCount
  have := List.length_pos.mpr (getCarImages_ne_nil car)
  omega

theorem stringImages_eq_nil (car : JSValue)
    (h : ∀ xs, getProp car "images" = arr xs → ∀ x ∈ xs, x.isString = false) :
    stringImages car = [] := by
  unfold stringImages
  split
  · rename_i xs hxs
    apply List.filter_eq_nil_iff.mpr
    intro x hx
    simp [h xs hxs x hx]
  · rfl

theorem getCarImages_falsy (car : JSValue) (h : car.truthy = false) :
    getCarImages car = [str PLACEHOLDER_CAR_IMAGE] := by
  simp [getCarImages, h]

theorem getCarImages_no_reference (car : JSValue) (himgs : stringImages car = [])
    (hurl : (getProp car "imageUrl").truthy = false) :
    getCarImages car = [str PLACEHOLDER_CAR_IMAGE] := by
  rcases getCarImages_cases car with h | ⟨_, hne⟩ | ⟨_, ht, _⟩
  · exact h
  · exact absurd himgs hne
  · rw [hurl] at ht
    exact Bool.noConfusion ht

/-! ## Claims about `getCarImages` -/

/-- C1: for every input the list `getCarImages` returns is non-empty, and when
no usable reference exists -- the record is `null` (or otherwise falsy), or its
`images` is not an array with a string entry (absent, empty, or without any
string) and its `imageUrl` is absent (or otherwise falsy) -- the result is
exactly the one-element list `[PLACEHOLDER_CAR_IMAGE]`. -/
theorem getCarImages_nonempty_placeholder (car : JSValue) :
    getCarImages car ≠ [] ∧
    ((car.truthy = false ∨
        ((∀ xs, getProp car "images" = arr xs → ∀ x ∈ xs, x.isString = false) ∧
          (getProp car "imageUrl").truthy = false)) →
      getCarImages car = [str PLACEHOLDER_CAR_IMAGE]) := by
  refine ⟨getCarImages_ne_nil car, ?_⟩
  rintro (h | ⟨himgs, hurl⟩)
  · exact getCarImages_falsy car h
  · exact getCarImages_no_reference car (stringImages_eq_nil car himgs) hurl

/-- Witness for C1: the `null` record, and a record whose `images` holds no
string and that has no `imageUrl`. -/
theorem getCarImages_nonempty_placeholder_witness :
    getCarImages null = [str PLACEHOLDER_CAR_IMAGE] ∧
    getProp (obj [("brand", str "Honda"), ("images", arr [num 7, null])]) "imageUrl" = undefined ∧
    getCarImages (obj [("brand", str "Honda"), ("images", arr [num 7, null])])
      = [str PLACEHOLDER_CAR_IMAGE] :=
  ⟨(getCarImages_nonempty_placeholder null).2 (Or.inl rfl), rfl,
    (getCarImages_nonempty_placeholder
      (obj [("brand", str "Honda"), ("images", arr [num 7, null])])).2
      (Or.inr ⟨by
        intro xs hxs x hx
        have hxs2 : arr [num 7, null] = arr xs := hxs
        cases hxs2
        simp at hx
        rcases hx with rfl | rfl <;> rfl, rfl⟩)⟩

/-- C2, as the code has it: for a car record whose `images` is a non-empty
array of strings and whose `imageUrl` is a non-empty string, `getCarImages`
returns `[imageUrl, ...images]` when `imageUrl` does not occur in `images`, and
`images` unchanged when it does. -/
theorem getCarImages_imageUrl_first (fields : List (String × JSValue))
    (imgs : List String) (url : String)
    (himgs : getProp (obj fields) "images" = arr (imgs.map str)) (hne : imgs ≠ [])
    (hurl : getProp (obj fields) "imageUrl" = str url) (hurl_ne : url ≠ "") :
    getCarImages (obj fields) =
      if url ∈ imgs then imgs.map str else str url :: imgs.map str := by
  have hs : stringImages (obj fields) = imgs.map str := by
    unfold stringImages
    rw [himgs]
    exact filter_isString_map_str imgs
  have hmap : imgs.map str ≠ [] := by
    intro h
    exact hne (List.map_eq_nil_iff.mp h)
  have ht : (str url).truthy = true := by
    simp [truthy, hurl_ne]
  have hc : (obj fields).truthy = true := rfl
  unfold getCarImages
  simp only [hc, hs, hurl, ht, includes_map_str, Bool.not_true, Bool.false_eq_true, if_false,
    Bool.true_and]
  by_cases hin : url ∈ imgs
  · simp [hin, hne]
  · simp [hin]

/-- Witness for C2: the record `{brand: "Honda", model: "City",
images: ["a.jpg", "b.jpg"], imageUrl: "a.jpg"}` yields `["a.jpg", "b.jpg"]`. -/
theorem getCarImages_imageUrl_first_witness :
    getCarImages (obj [("brand", str "Honda"), ("model", str "City"),
        ("images", arr [str "a.jpg", str "b.jpg"]), ("imageUrl", str "a.jpg")])
      = [str "a.jpg", str "b.jpg"] := by
  have h := getCarImages_imageUrl_first
    [("brand", str "Honda"), ("model", str "City"),
      ("images", arr [str "a.jpg", str "b.jpg"]), ("imageUrl", str "a.jpg")]
    ["a.jpg", "b.jpg"] "a.jpg" rfl (by simp) rfl (by decide)
  simpa using h

/-- Counterexample to C2 as stated: `imageUrl: ""` is a string that does not
occur in `images`, and it is not prepended. -/
theorem getCarImages_empty_imageUrl_counterexample :
    getProp (obj [("images", arr [str "a.jpg", str "b.jpg"]), ("imageUrl", str "")]) "images"
      = arr (["a.jpg", "b.jpg"].map str) ∧
    getProp (obj [("images", arr [str "a.jpg", str "b.jpg"]), ("imageUrl", str "")]) "imageUrl"
      = str "" ∧
    "" ∉ ["a.jpg", "b.jpg"] ∧
    getCarImages (obj [("images", arr [str "a.jpg", str "b.jpg"]), ("imageUrl", str "")])
      = [str "a.jpg", str "b.jpg"] ∧
    getCarImages (obj [("images", arr [str "a.jpg", str "b.jpg"]), ("imageUrl", str "")])
      ≠ str "" :: ["a.jpg", "b.jpg"].map str := by
  refine ⟨rfl, rfl, by decide, rfl, ?_⟩
  have h : getCarImages
      (obj [("images", arr [str "a.jpg", str "b.jpg"]), ("imageUrl", str "")])
      = [str "a.jpg", str "b.jpg"] := rfl
  rw [h]
  simp

/-- C8 at an ill-typed record: a truthy `imageUrl` that is not a string (here
the number 42) is prepended, so the returned list holds a non-string. -/
theorem getCarImages_numeric_imageUrl :
    getCarImages (obj [("brand", str "Honda"), ("images", arr [str "a.jpg", num 5]),
        ("imageUrl", num 42)])
      = [num 42, str "a.jpg"] ∧
    (num 42).isString = false :=
  ⟨rfl, rfl⟩

/-- Counterexample to C9 as stated: a reference that occurs twice in `images`
occurs twice in the returned list. -/
theorem getCarImages_duplicate_counterexample :
    getCarImages (obj [("images", arr [str "a.jpg", str "a.jpg"])])
      = [str "a.jpg", str "a.jpg"] ∧
    ¬ (getCarImages (obj [("images", arr [str "a.jpg", str "a.jpg"])])).Nodup := by
  have h : getCarImages (obj [("images", arr [str "a.jpg", str "a.jpg"])])
      = [str "a.jpg", str "a.jpg"] := rfl
  refine ⟨h, ?_⟩
  rw [h]
  simp

theorem includes_iff_mem (xs : List JSValue) (v : JSValue)
    (hstr : ∀ x ∈ xs, x.isString = true) : includes xs v = true ↔ v ∈ xs := by
  constructor
  · intro h
    unfold includes at h
    obtain ⟨x, hx, hsame⟩ := List.any_eq_true.mp h
    rw [← sameValueZero_eq x v hsame]
    exact hx
  · intro hv
    cases hinc : includes xs v with
    | true => rfl
    | false => exact absurd hv (not_mem_of_includes_false xs v hstr hinc)

/-- C9, as the code has it: `getCarImages` adds no repetition of its own.  For
a (truthy) record it returns the string entries of `images` in their order,
repetitions included, with `imageUrl` in front when `imageUrl` is truthy and
does not occur among them, and unchanged when `imageUrl` is falsy or already
occurs among them and there is at least one string entry.  Hence a reference
occurs more than once in the returned list only if it occurs more than once
among the string entries of `images`, and when those are pairwise distinct no
reference occurs more than once in the returned list. -/
theorem getCarImages_repetitions (car : JSValue) :
    (car.truthy = true → (getProp car "imageUrl").truthy = true →
      getProp car "imageUrl" ∉ stringImages car →
      getCarImages car = getProp car "imageUrl" :: stringImages car) ∧
    (car.truthy = true →
      ((getProp car "imageUrl").truthy = false ∨ getProp car "imageUrl" ∈ stringImages car) →
      stringImages car ≠ [] →
      getCarImages car = stringImages car) ∧
    (∀ x, List.Duplicate x (getCarImages car) → List.Duplicate x (stringImages car)) ∧
    ((stringImages car).Nodup → (getCarImages car).Nodup) := by
  have hstr := stringImages_isString car
  refine ⟨?_, ?_, ?_, ?_⟩
  · intro hc hu hnot
    have hinc : includes (stringImages car) (getProp car "imageUrl") = false := by
      cases hi : includes (stringImages car) (getProp car "imageUrl") with
      | false => rfl
      | true => exact absurd ((includes_iff_mem _ _ hstr).mp hi) hnot
    unfold getCarImages
    simp [hc, hu, hinc]
  · intro hc hor hne
    unfold getCarImages
    rcases hor with hu | hmem
    · simp [hc, hu, hne]
    · have hinc := (includes_iff_mem _ _ hstr).mpr hmem
      simp [hc, hinc, hne]
  · intro x hx
    rcases getCarImages_cases car with he | ⟨he, _⟩ | ⟨he, _, hinc⟩
    · rw [he] at hx
      exact absurd hx (List.not_duplicate_singleton _ _)
    · rw [he] at hx
      exact hx
    · rw [he] at hx
      rcases List.duplicate_cons_iff.mp hx with ⟨heq, hmem⟩ | hdup
      · rw [← heq] at hmem
        exact absurd hmem (not_mem_of_includes_false _ _ hstr hinc)
      · exact hdup
  · intro h
    rcases getCarImages_cases car with he | ⟨he, _⟩ | ⟨he, _, hinc⟩
    · rw [he]
      exact List.nodup_singleton _
    · rw [he]
      exact h
    · rw [he]
      exact List.nodup_cons.mpr ⟨not_mem_of_includes_false _ _ hstr hinc, h⟩

/-- Witness for C9: `images` repeats `"a.jpg"` and `imageUrl` is one of the
entries; the list comes back as it is, with its repetition and nothing added. -/
theorem getCarImages_repetitions_witness :
    stringImages (obj [("images", arr [str "a.jpg", str "a.jpg", str "b.jpg"]),
        ("imageUrl", str "b.jpg")]) = [str "a.jpg", str "a.jpg", str "b.jpg"] ∧
    getCarImages (obj [("images", arr [str "a.jpg", str "a.jpg", str "b.jpg"]),
        ("imageUrl", str "b.jpg")])
      = stringImages (obj [("images", arr [str "a.jpg", str "a.jpg", str "b.jpg"]),
        ("imageUrl", str "b.jpg")]) :=
  ⟨rfl,
    (getCarImages_repetitions (obj [("images", arr [str "a.jpg", str "a.jpg", str "b.jpg"]),
        ("imageUrl", str "b.jpg")])).2.1 rfl
      (Or.inr (by
        show str "b.jpg" ∈ [str "a.jpg", str "a.jpg", str "b.jpg"]
        simp))
      (by
        show [str "a.jpg", str "a.jpg", str "b.jpg"] ≠ []
        simp)⟩

/-- Every entry of the returned list is a string, provided `imageUrl` is falsy
(for instance absent) or a string. -/
theorem getCarImages_all_strings (car : JSValue)
    (h : (getProp car "imageUrl").truthy = false ∨ (getProp car "imageUrl").isString = true) :
    ∀ x ∈ getCarImages car, x.isString = true := by
  intro x hx
  rcases getCarImages_cases car with he | ⟨he, _⟩ | ⟨he, ht, _⟩
  · rw [he] at hx
    rw [List.mem_singleton.mp hx]
    rfl
  · rw [he] at hx
    exact stringImages_isString car x hx
  · rw [he] at hx
    rcases List.mem_cons.mp hx with rfl | hx
    · rcases h with h | h
      · rw [h] at ht
        exact Bool.noConfusion ht
      · exact h
    · exact stringImages_isString car x hx

/-! ## Index arithmetic -/

theorem next_eq (N i : Int) (h0 : 0 ≤ i) (hi : i < N) :
    next N i = if i + 1 = N then 0 else i + 1 := by
  unfold next
  by_cases h : i + 1 = N
  · rw [if_pos h, h]
    exact Int.tmod_self
  · rw [if_neg h]
    exact Int.tmod_eq_of_lt (by omega) (by omega)

theorem prev_eq (N i : Int) (h0 : 0 ≤ i) (hi : i < N) :
    prev N i = if i = 0 then N - 1 else i - 1 := by
  unfold prev
  by_cases h : i = 0
  · rw [if_pos h]
    subst h
    have e : (0 : Int) - 1 + N = N - 1 := by omega
    rw [e]
    exact Int.tmod_eq_of_lt (by omega) (by omega)
  · rw [if_neg h, Int.tmod_eq_emod (by omega) (by omega), Int.add_emod_self]
    exact Int.emod_eq_of_lt (by omega) (by omega)

theorem next_range (N i : Int) (h0 : 0 ≤ i) (hi : i < N) :
    0 ≤ next N i ∧ next N i < N := by
  rw [next_eq N i h0 hi]
  split <;> omega

theorem prev_range (N i : Int) (h0 : 0 ≤ i) (hi : i < N) :
    0 ≤ prev N i ∧ prev N i < N := by
  rw [prev_eq N i h0 hi]
  split <;> omega

/-- C3: the navigation functions `next(i) = (i + 1) % N` and
`prev(i) = (i - 1 + N) % N` of the arrow and keyboard handlers are mutual
inverses on the valid indices: for `N ≥ 1` and `0 ≤ i < N`,
`prev(next(i)) = i` and `next(prev(i)) = i`; and for `N = 1`,
`next(0) = prev(0) = 0`. -/
theorem next_prev_inverse (N i : Int) (_hN : 1 ≤ N) (h0 : 0 ≤ i) (hi : i < N) :
    prev N (next N i) = i ∧ next N (prev N i) = i ∧ next 1 0 = 0 ∧ prev 1 0 = 0 := by
  have hn := next_range N i h0 hi
  have hp := prev_range N i h0 hi
  refine ⟨?_, ?_, ?_, ?_⟩
  · rw [prev_eq N (next N i) hn.1 hn.2, next_eq N i h0 hi]
    by_cases h : i + 1 = N
    · simp only [if_pos h, if_true]
      omega
    · rw [if_neg h]
      have h1 : ¬ i + 1 = 0 := by omega
      rw [if_neg h1]
      omega
  · rw [next_eq N (prev N i) hp.1 hp.2, prev_eq N i h0 hi]
    by_cases h : i = 0
    · rw [if_pos h]
      have h1 : N - 1 + 1 = N := by omega
      rw [if_pos h1]
      omega
    · rw [if_neg h]
      have h1 : ¬ i - 1 + 1 = N := by omega
      rw [if_neg h1]
      omega
  · decide
  · decide

/-- Witness for C3: the last index of a three-image list. -/
theorem next_prev_inverse_witness :
    prev 3 (next 3 2) = 2 ∧ next 3 (prev 3 2) = 2 ∧ next 1 0 = 0 ∧ prev 1 0 = 0 :=
  next_prev_inverse 3 2 (by decide) (by decide) (by decide)

/-! ## The state machine -/

theorem render_car (s : PageState) : (render s).car = s.car := by
  unfold render
  split
  · split <;> rfl
  · rfl

theorem render_activeIndex (s : PageState) : (render s).activeIndex = s.activeIndex := by
  unfold render
  split
  · split <;> rfl
  · rfl

theorem render_resetPending (s : PageState) : (render s).resetPending = s.resetPending := by
  unfold render
  split
  · split <;> rfl
  · rfl

theorem handle_galleryInv (rt : Runtime) (s : PageState) (e : Event)
    (he : isLoadFinish e = false) (h : GalleryInv s) :
    GalleryInv (handle rt s e) := by
  have hpos := imageCount_pos s.car
  obtain ⟨h0, h1⟩ := h
  cases e with
  | loadFinish fetched => simp [isLoadFinish] at he
  | loadStart => exact ⟨h0, h1⟩
  | resetEffect =>
    simp only [handle]
    split
    · exact ⟨le_refl 0, hpos⟩
    · exact ⟨h0, h1⟩
  | sliderPrev =>
    simp only [handle]
    split
    · exact prev_range _ _ h0 h1
    · exact ⟨h0, h1⟩
  | sliderNext =>
    simp only [handle]
    split
    · exact next_range _ _ h0 h1
    · exact ⟨h0, h1⟩
  | selectThumbnail i =>
    simp only [handle]
    split
    · rename_i hc
      simp only [Bool.and_eq_true, decide_eq_true_eq] at hc
      exact ⟨Int.ofNat_nonneg i, hc.2⟩
    · exact ⟨h0, h1⟩
  | openLightbox =>
    simp only [handle]
    split
    · exact ⟨h0, h1⟩
    · exact ⟨h0, h1⟩
  | lightboxPrev =>
    simp only [handle]
    split
    · split
      · exact ⟨h0, h1⟩
      · exact ⟨h0, h1⟩
    · exact ⟨h0, h1⟩
  | lightboxNext =>
    simp only [handle]
    split
    · split
      · exact ⟨h0, h1⟩
      · exact ⟨h0, h1⟩
    · exact ⟨h0, h1⟩
  | lightboxClose =>
    simp only [handle]
    split
    · exact ⟨h0, h1⟩
    · exact ⟨h0, h1⟩
  | keydown key =>
    simp only [handle]
    split
    · split
      · exact ⟨h0, h1⟩
      · split
        · exact ⟨h0, h1⟩
        · split
          · exact ⟨h0, h1⟩
          · exact ⟨h0, h1⟩
    · exact ⟨h0, h1⟩

theorem step_galleryInv (rt : Runtime) (s : PageState) (e : Event)
    (he : isLoadFinish e = false) (h : GalleryInv s) :
    GalleryInv (step rt s e) := by
  have hh := handle_galleryInv rt s e he h
  unfold GalleryInv at hh ⊢
  unfold step
  rw [render_activeIndex, render_car]
  exact hh

/-- Events other than the completion of a load and the reset effect leave the
scheduling of the reset effect alone. -/
theorem handle_resetPending (rt : Runtime) (s : PageState) (e : Event)
    (he : isLoadFinish e = false) :
    e = Event.resetEffect ∨ (handle rt s e).resetPending = s.resetPending := by
  cases e with
  | loadFinish fetched => simp [isLoadFinish] at he
  | resetEffect => exact Or.inl rfl
  | loadStart => exact Or.inr rfl
  | sliderPrev =>
    right
    simp only [handle]
    split <;> rfl
  | sliderNext =>
    right
    simp only [handle]
    split <;> rfl
  | selectThumbnail i =>
    right
    simp only [handle]
    split <;> rfl
  | openLightbox =>
    right
    simp only [handle]
    split <;> rfl
  | lightboxPrev =>
    right
    simp only [handle]
    split
    · split <;> rfl
    · rfl
  | lightboxNext =>
    right
    simp only [handle]
    split
    · split <;> rfl
    · rfl
  | lightboxClose =>
    right
    simp only [handle]
    split <;> rfl
  | keydown key =>
    right
    simp only [handle]
    split
    · split
      · rfl
      · split
        · rfl
        · split <;> rfl
    · rfl

/-- Once the reset effect has run, the gallery index is valid. -/
theorem handle_resetEffect_galleryInv (rt : Runtime) (s : PageState)
    (h : SettledGalleryInv s) : GalleryInv (handle rt s Event.resetEffect) := by
  simp only [handle]
  split
  · exact ⟨le_refl 0, imageCount_pos s.car⟩
  · rename_i hp
    simp only [Bool.not_eq_true] at hp
    exact h hp

theorem handle_settledGalleryInv (rt : Runtime) (s : PageState) (e : Event)
    (h : SettledGalleryInv s) : SettledGalleryInv (handle rt s e) := by
  by_cases he : isLoadFinish e = true
  · cases e with
    | loadFinish fetched =>
      simp only [handle]
      split
      · rename_i d _
        intro hp
        simp only [Bool.or_eq_false_iff, Bool.not_eq_false_eq_eq_true] at hp
        have hd : s.car = d := sameValueZero_eq _ _ hp.2
        have hg := h hp.1
        unfold GalleryInv at hg ⊢
        simp only
        rw [← hd]
        exact hg
      · exact h
    | loadStart => simp [isLoadFinish] at he
    | resetEffect => simp [isLoadFinish] at he
    | sliderPrev => simp [isLoadFinish] at he
    | sliderNext => simp [isLoadFinish] at he
    | selectThumbnail i => simp [isLoadFinish] at he
    | openLightbox => simp [isLoadFinish] at he
    | lightboxPrev => simp [isLoadFinish] at he
    | lightboxNext => simp [isLoadFinish] at he
    | lightboxClose => simp [isLoadFinish] at he
    | keydown key => simp [isLoadFinish] at he
  · simp only [Bool.not_eq_true] at he
    rcases handle_resetPending rt s e he with rfl | hp
    · exact fun _ => handle_resetEffect_galleryInv rt s h
    · intro hq
      rw [hp] at hq
      exact handle_galleryInv rt s e he (h hq)

theorem step_settledGalleryInv (rt : Runtime) (s : PageState) (e : Event)
    (h : SettledGalleryInv s) : SettledGalleryInv (step rt s e) := by
  have hh := handle_settledGalleryInv rt s e h
  unfold SettledGalleryInv GalleryInv at hh ⊢
  unfold step
  rw [render_activeIndex, render_car, render_resetPending]
  exact hh

theorem run_settledGalleryInv (rt : Runtime) (es : List Event) :
    ∀ s, SettledGalleryInv s → SettledGalleryInv (run rt s es) := by
  induction es with
  | nil => intro s h; exact h
  | cons e rest ih =>
    intro s h
    exact ih (step rt s e) (step_settledGalleryInv rt s e h)

theorem init_galleryInv : GalleryInv init := by
  refine ⟨le_refl 0, ?_⟩
  exact imageCount_pos init.car

/-- Counterexample to C5 as stated: in the render committed when the one-image
car has been stored by `setCar` and the reset effect has not run yet, the
gallery index is still 3, past the end of the new image list. -/
theorem gallery_index_stale_counterexample :
    Reachable sampleRuntime (run sampleRuntime init staleGalleryTrace) ∧
    (run sampleRuntime init staleGalleryTrace).loading = false ∧
    (run sampleRuntime init staleGalleryTrace).activeIndex = 3 ∧
    getCarImages (run sampleRuntime init staleGalleryTrace).car = [str "z.jpg"] ∧
    ¬ GalleryInv (run sampleRuntime init staleGalleryTrace) := by
  refine ⟨⟨staleGalleryTrace, rfl⟩, by decide, by decide, rfl, by decide⟩

/-- C5, as the code has it: the gallery index invariant
`0 ≤ activeIndex < images.length` holds initially; it is preserved by every
event other than the completion of a load (slider next and prev, selecting a
thumbnail, the lightbox events, the reset effect); loading a car record and then
running the reset effect, which sets `activeIndex` to 0, preserves it; and it
holds in every reachable page state in which no reset effect is scheduled. -/
theorem gallery_index_invariant (rt : Runtime) :
    GalleryInv init ∧
    (∀ s e, isLoadFinish e = false → GalleryInv s → GalleryInv (step rt s e)) ∧
    (∀ s fetched, GalleryInv s →
      GalleryInv (run rt s [Event.loadFinish fetched, Event.resetEffect])) ∧
    (∀ s, Reachable rt s → s.resetPending = false → GalleryInv s) := by
  refine ⟨init_galleryInv, step_galleryInv rt, ?_, ?_⟩
  · intro s fetched h
    have h1 : SettledGalleryInv (step rt s (Event.loadFinish fetched)) :=
      step_settledGalleryInv rt s _ (fun _ => h)
    have h2 := handle_resetEffect_galleryInv rt _ h1
    show GalleryInv (step rt (step rt s (Event.loadFinish fetched)) Event.resetEffect)
    unfold GalleryInv at h2 ⊢
    unfold step at h2 ⊢
    rw [render_activeIndex, render_car]
    exact h2
  · rintro s ⟨es, rfl⟩
    exact run_settledGalleryInv rt es init (fun _ => init_galleryInv)

/-- Witness for C5: a four-image car is loaded, the slider wraps back to the
last image, a one-image car is loaded and the reset effect runs. -/
theorem gallery_index_invariant_witness :
    (run sampleRuntime init settledGalleryTrace).resetPending = false ∧
    (run sampleRuntime init settledGalleryTrace).activeIndex = 0 ∧
    GalleryInv (run sampleRuntime init settledGalleryTrace) :=
  ⟨by decide, by decide,
    (gallery_index_invariant sampleRuntime).2.2.2 _ ⟨settledGalleryTrace, rfl⟩ (by decide)⟩

/-! ## The lightbox and the gallery -/

theorem showsDetail_congr (s t : PageState) (hc : t.car = s.car) (hl : t.loading = s.loading)
    (he : t.error = s.error) : showsDetail t = showsDetail s := by
  unfold showsDetail view
  rw [hc, hl, he]

theorem render_showsDetail (s : PageState) : showsDetail (render s) = showsDetail s := by
  apply showsDetail_congr
  · exact render_car s
  · unfold render
    split
    · split <;> rfl
    · rfl
  · unfold render
    split
    · split <;> rfl
    · rfl

theorem render_lightbox (s : PageState) : (render s).lightbox = s.lightbox := by
  unfold render
  split
  · split <;> rfl
  · rfl

theorem render_isSome (s : PageState) :
    (render s).lightboxIndex.isSome = (showsDetail s && s.lightbox.isOpen) := by
  unfold render
  split
  · rename_i h
    split
    · rename_i i hi
      rw [hi, h]
      rfl
    · rw [h]
      rfl
  · rename_i h
    simp only [Bool.not_eq_true] at h
    rw [h]
    rfl

/-- The events of the lightbox never touch `activeIndex`. -/
theorem step_lightbox_event_activeIndex (rt : Runtime) (s : PageState) (e : Event)
    (he : e = Event.openLightbox ∨ isLightboxNav e = true ∨ isLightboxClose e = true) :
    (step rt s e).activeIndex = s.activeIndex := by
  unfold step
  rw [render_activeIndex]
  cases e with
  | loadStart => rfl
  | loadFinish fetched => simp [isLightboxNav, isLightboxClose] at he
  | resetEffect => simp [isLightboxNav, isLightboxClose] at he
  | sliderPrev => simp [isLightboxNav, isLightboxClose] at he
  | sliderNext => simp [isLightboxNav, isLightboxClose] at he
  | selectThumbnail i => simp [isLightboxNav, isLightboxClose] at he
  | openLightbox =>
    simp only [handle]
    split <;> rfl
  | lightboxPrev =>
    simp only [handle]
    split
    · split <;> rfl
    · rfl
  | lightboxNext =>
    simp only [handle]
    split
    · split <;> rfl
    · rfl
  | lightboxClose =>
    simp only [handle]
    split <;> rfl
  | keydown key =>
    simp only [handle]
    split
    · split
      · rfl
      · split
        · rfl
        · split <;> rfl
    · rfl

theorem step_open_from_detail (rt : Runtime) (s : PageState) (h : showsDetail s = true) :
    LightboxOpenOver s.activeIndex (step rt s Event.openLightbox) := by
  have hh : handle rt s Event.openLightbox
      = { s with lightbox := { isOpen := true, index := s.activeIndex } } := by
    simp [handle, h]
  have hd : showsDetail (handle rt s Event.openLightbox) = true := by
    rw [hh]
    exact (showsDetail_congr s _ rfl rfl rfl).trans h
  have ho : (handle rt s Event.openLightbox).lightbox.isOpen = true := by
    rw [hh]
  unfold LightboxOpenOver step
  rw [render_showsDetail, render_lightbox, render_isSome, render_activeIndex, hd, ho, hh]
  exact ⟨rfl, rfl, rfl, rfl⟩

theorem handle_nav_frame (rt : Runtime) (s : PageState) (e : Event)
    (he : isLightboxNav e = true) :
    (handle rt s e).car = s.car ∧ (handle rt s e).loading = s.loading ∧
    (handle rt s e).error = s.error ∧ (handle rt s e).activeIndex = s.activeIndex ∧
    (handle rt s e).lightbox = s.lightbox := by
  cases e with
  | loadStart => simp [isLightboxNav] at he
  | loadFinish fetched => simp [isLightboxNav] at he
  | resetEffect => simp [isLightboxNav] at he
  | sliderPrev => simp [isLightboxNav] at he
  | sliderNext => simp [isLightboxNav] at he
  | selectThumbnail i => simp [isLightboxNav] at he
  | openLightbox => simp [isLightboxNav] at he
  | lightboxClose => simp [isLightboxNav] at he
  | lightboxPrev =>
    simp only [handle]
    split
    · split <;> exact ⟨rfl, rfl, rfl, rfl, rfl⟩
    · exact ⟨rfl, rfl, rfl, rfl, rfl⟩
  | lightboxNext =>
    simp only [handle]
    split
    · split <;> exact ⟨rfl, rfl, rfl, rfl, rfl⟩
    · exact ⟨rfl, rfl, rfl, rfl, rfl⟩
  | keydown key =>
    have hne : ¬ key = "Escape" := by
      simp only [isLightboxNav, Bool.or_eq_true, decide_eq_true_eq] at he
      rcases he with rfl | rfl <;> decide
    simp only [handle]
    split
    · rw [if_neg hne]
      split
      · exact ⟨rfl, rfl, rfl, rfl, rfl⟩
      · split <;> exact ⟨rfl, rfl, rfl, rfl, rfl⟩
    · exact ⟨rfl, rfl, rfl, rfl, rfl⟩

theorem step_nav_open (rt : Runtime) (a : Int) (s : PageState) (e : Event)
    (he : isLightboxNav e = true) (h : LightboxOpenOver a s) :
    LightboxOpenOver a (step rt s e) := by
  obtain ⟨hc, hl, herr, hact, hlb⟩ := handle_nav_frame rt s e he
  obtain ⟨hd, ho, _, ha⟩ := h
  have hd2 : showsDetail (handle rt s e) = true :=
    (showsDetail_congr s _ hc hl herr).trans hd
  unfold LightboxOpenOver step
  rw [render_showsDetail, render_lightbox, render_isSome, render_activeIndex, hd2, hlb, ho,
    hact, ha]
  exact ⟨rfl, rfl, rfl, rfl⟩

theorem run_nav_open (rt : Runtime) (a : Int) (nav : List Event)
    (hnav : ∀ e ∈ nav, isLightboxNav e = true) :
    ∀ s, LightboxOpenOver a s → LightboxOpenOver a (run rt s nav) := by
  induction nav with
  | nil => intro s h; exact h
  | cons e rest ih =>
    intro s h
    exact ih (fun x hx => hnav x (List.mem_cons_of_mem e hx)) (step rt s e)
      (step_nav_open rt a s e (hnav e (List.mem_cons_self e rest)) h)

theorem step_close_open (rt : Runtime) (a : Int) (s : PageState) (e : Event)
    (he : isLightboxClose e = true) (h : LightboxOpenOver a s) :
    (step rt s e).lightbox.isOpen = false ∧ (step rt s e).lightboxIndex = none := by
  obtain ⟨_, _, hsome, _⟩ := h
  obtain ⟨i, hi⟩ := Option.isSome_iff_exists.mp hsome
  have hh : handle rt s e = { s with lightbox := { isOpen := false, index := 0 } } := by
    cases e with
    | loadStart => simp [isLightboxClose] at he
    | loadFinish fetched => simp [isLightboxClose] at he
    | resetEffect => simp [isLightboxClose] at he
    | sliderPrev => simp [isLightboxClose] at he
    | sliderNext => simp [isLightboxClose] at he
    | selectThumbnail i => simp [isLightboxClose] at he
    | openLightbox => simp [isLightboxClose] at he
    | lightboxPrev => simp [isLightboxClose] at he
    | lightboxNext => simp [isLightboxClose] at he
    | lightboxClose => simp [handle, hi]
    | keydown key =>
      simp only [isLightboxClose, decide_eq_true_eq] at he
      simp [handle, hi, he]
  have hopen : (handle rt s e).lightbox.isOpen = false := by rw [hh]
  have hnone : (step rt s e).lightboxIndex.isSome = false := by
    unfold step
    rw [render_isSome, hopen, Bool.and_false]
  refine ⟨?_, ?_⟩
  · unfold step
    rw [render_lightbox, hopen]
  · cases hx : (step rt s e).lightboxIndex with
    | none => rfl
    | some j => rw [hx] at hnone; exact Bool.noConfusion hnone

theorem run_lightbox_events_activeIndex (rt : Runtime) (es : List Event)
    (hes : ∀ e ∈ es,
      e = Event.openLightbox ∨ isLightboxNav e = true ∨ isLightboxClose e = true) :
    ∀ s, (run rt s es).activeIndex = s.activeIndex := by
  induction es with
  | nil => intro s; rfl
  | cons e rest ih =>
    intro s
    have h1 := ih (fun x hx => hes x (List.mem_cons_of_mem e hx)) (step rt s e)
    have h2 := step_lightbox_event_activeIndex rt s e (hes e (List.mem_cons_self e rest))
    exact h1.trans h2

theorem run_append (rt : Runtime) (s : PageState) (es fs : List Event) :
    run rt s (es ++ fs) = run rt (run rt s es) fs := by
  unfold run
  exact List.foldl_append _ _ _ _

/-- C4: lightbox navigation never writes back to the gallery.  From every page
state, opening the lightbox, then any finite sequence of lightbox next/prev
steps (arrow buttons or the keys `ArrowRight`/`ArrowLeft`), then closing it
(close button or `Escape`) leaves `activeIndex` as it was; and when the page
shows the detail view, so that the lightbox really opens, it is closed
(`lightbox.open` false, no `Lightbox` mounted) at the end. -/
theorem lightbox_no_write_back (rt : Runtime) (s : PageState) (nav : List Event)
    (close : Event) (hnav : ∀ e ∈ nav, isLightboxNav e = true)
    (hclose : isLightboxClose close = true) :
    (run rt s (Event.openLightbox :: (nav ++ [close]))).activeIndex = s.activeIndex ∧
    (showsDetail s = true →
      (run rt s (Event.openLightbox :: (nav ++ [close]))).lightbox.isOpen = false ∧
      (run rt s (Event.openLightbox :: (nav ++ [close]))).lightboxIndex = none) := by
  refine ⟨?_, ?_⟩
  · apply run_lightbox_events_activeIndex
    intro e he
    rcases List.mem_cons.mp he with rfl | he
    · exact Or.inl rfl
    · rcases List.mem_append.mp he with he | he
      · exact Or.inr (Or.inl (hnav e he))
      · rw [List.mem_singleton.mp he]
        exact Or.inr (Or.inr hclose)
  · intro hd
    have h1 := step_open_from_detail rt s hd
    have h2 := run_nav_open rt s.activeIndex nav hnav _ h1
    have h3 := step_close_open rt s.activeIndex _ close hclose h2
    have e : run rt s (Event.openLightbox :: (nav ++ [close]))
        = step rt (run rt (step rt s Event.openLightbox) nav) close := by
      show run rt (step rt s Event.openLightbox) (nav ++ [close]) = _
      rw [run_append]
      rfl
    rw [e]
    exact h3

/-- Witness for C4: from the third image, `ArrowRight` twice and the left
arrow once inside the lightbox, then `Escape`. -/
theorem lightbox_no_write_back_witness :
    showsDetail galleryAtThird = true ∧ galleryAtThird.activeIndex = 2 ∧
    (run sampleRuntime galleryAtThird
      (Event.openLightbox ::
        ([Event.keydown "ArrowRight", Event.keydown "ArrowRight", Event.lightboxPrev]
          ++ [Event.keydown "Escape"]))).activeIndex = 2 ∧
    (run sampleRuntime galleryAtThird
      (Event.openLightbox ::
        ([Event.keydown "ArrowRight", Event.keydown "ArrowRight", Event.lightboxPrev]
          ++ [Event.keydown "Escape"]))).lightbox.isOpen = false := by
  have h := lightbox_no_write_back sampleRuntime galleryAtThird
    [Event.keydown "ArrowRight", Event.keydown "ArrowRight", Event.lightboxPrev]
    (Event.keydown "Escape")
    (by
      intro e he
      simp only [List.mem_cons, List.mem_singleton, List.not_mem_nil, or_false] at he
      rcases he with rfl | rfl | rfl <;> rfl)
    rfl
  have hd : showsDetail galleryAtThird = true := by decide
  exact ⟨hd, by decide, h.1.trans (by decide), (h.2 hd).1⟩

/-- C10 at a failing run: after `staleLightboxTrace` the re-mounted lightbox
displays index 3 of an image list of length 1. -/
theorem lightbox_index_out_of_range :
    (run sampleRuntime init staleLightboxTrace).lightbox.isOpen = true ∧
    (run sampleRuntime init staleLightboxTrace).lightboxIndex = some 3 ∧
    getCarImages (run sampleRuntime init staleLightboxTrace).car = [str "z.jpg"] ∧
    ¬ LightboxInv (run sampleRuntime init staleLightboxTrace) := by
  refine ⟨by decide, by decide, rfl, ?_⟩
  intro h
  have h3 := (h 3 (by decide)).2
  have hc : imageCount (run sampleRuntime init staleLightboxTrace).car = 1 := by decide
  rw [hc] at h3
  exact absurd h3 (by decide)

/-! ## The loader -/

theorem render_error (s : PageState) : (render s).error = s.error := by
  unfold render
  split
  · split <;> rfl
  · rfl

theorem render_loading (s : PageState) : (render s).loading = s.loading := by
  unfold render
  split
  · split <;> rfl
  · rfl

theorem loadCar_fetch_failure (rt : Runtime) (m : String) :
    loadCar rt (.error m) = .error m := by
  rfl

theorem loadCar_parse_failure (rt : Runtime) (ok : Bool) (m : String) :
    loadCar rt (.ok { ok := ok, json := .error m }) = .error m := by
  rfl

theorem readProp_of_ne (rt : Runtime) (data : JSValue) (key : String)
    (hnull : data ≠ null) (hundef : data ≠ undefined) :
    readProp rt data key = .ok (getProp data key) := by
  cases data with
  | null => exact absurd rfl hnull
  | undefined => exact absurd rfl hundef
  | bool b => rfl
  | num n => rfl
  | str s => rfl
  | arr xs => rfl
  | obj fields => rfl

theorem loadCar_envelope_failure (rt : Runtime) (ok : Bool) (data : JSValue)
    (hnull : data ≠ null) (hundef : data ≠ undefined)
    (hfail : ok = false ∨ (getProp data "success").truthy = false) :
    loadCar rt (.ok { ok := ok, json := .ok data }) =
      .error (errorMessage rt
        (if (getProp data "error").truthy then getProp data "error"
         else str "Failed to load car")) := by
  unfold loadCar
  simp only [bind, Except.bind, pure, Except.pure, throw, throwThe, MonadExceptOf.throw,
    readProp_of_ne rt data _ hnull hundef]
  rcases hfail with h | h
  · subst h
    simp
  · cases ok <;> simp [h]

theorem step_loadFinish_error (rt : Runtime) (s : PageState) (fetched : Except String Response)
    (m : String) (h : loadCar rt fetched = .error m) :
    (step rt s (Event.loadFinish fetched)).error = m ∧
    (step rt s (Event.loadFinish fetched)).loading = false ∧
    (step rt s (Event.loadFinish fetched)).car = s.car := by
  unfold step
  rw [render_error, render_loading, render_car]
  simp [handle, h]

/-- Counterexample to C6 as stated: when parsing the body fails there is no
envelope, hence no envelope error message, and yet the error recorded is the
parser's message, not `"Failed to load car"`. -/
theorem loadCar_parse_failure_counterexample :
    (step sampleRuntime init (Event.loadFinish unparsableResponse)).error
      = "Unexpected token < in JSON at position 0" ∧
    (step sampleRuntime init (Event.loadFinish unparsableResponse)).error
      ≠ "Failed to load car" := by
  constructor <;> decide

/-- C6, as the code has it: when the body parses to an envelope (any value but
`null`) and the status is not ok or the envelope's `success` is falsy, the
error recorded is the envelope's `error` if that is a non-empty string, and
`"Failed to load car"` if the envelope's `error` is absent or falsy; when
parsing the body fails, or the fetch itself, the error recorded is the message
of that failure. -/
theorem loadCar_records_error (rt : Runtime) (s : PageState) (ok : Bool) (data : JSValue)
    (hnull : data ≠ null) (hundef : data ≠ undefined)
    (hfail : ok = false ∨ (getProp data "success").truthy = false) :
    (∀ msg, getProp data "error" = str msg → msg ≠ "" →
      (step rt s (Event.loadFinish (.ok { ok := ok, json := .ok data }))).error = msg) ∧
    ((getProp data "error").truthy = false →
      (step rt s (Event.loadFinish (.ok { ok := ok, json := .ok data }))).error
        = "Failed to load car") ∧
    (∀ m, (step rt s (Event.loadFinish (.ok { ok := ok, json := .error m }))).error = m) ∧
    (∀ m, (step rt s (Event.loadFinish (.error m))).error = m) := by
  have hload := loadCar_envelope_failure rt ok data hnull hundef hfail
  refine ⟨?_, ?_, ?_, ?_⟩
  · intro msg hmsg hne
    have ht : (str msg).truthy = true := by simp [truthy, hne]
    rw [hmsg, ht] at hload
    exact (step_loadFinish_error rt s _ _ hload).1
  · intro hf
    rw [hf] at hload
    exact (step_loadFinish_error rt s _ _ hload).1
  · intro m
    exact (step_loadFinish_error rt s _ m (loadCar_parse_failure rt ok m)).1
  · intro m
    exact (step_loadFinish_error rt s _ m (loadCar_fetch_failure rt m)).1

/-- Witness for C6: status 500 with the body `{success: false}`, which has no
`error`, records the generic message. -/
theorem loadCar_records_error_witness :
    (step sampleRuntime init
      (Event.loadFinish (.ok { ok := false, json := .ok (obj [("success", bool false)]) }))).error
      = "Failed to load car" :=
  (loadCar_records_error sampleRuntime init false (obj [("success", bool false)])
    (fun h => JSValue.noConfusion h) (fun h => JSValue.noConfusion h) (Or.inl rfl)).2.1 rfl

/-- Counterexample to C7 as stated: a load that fails with "Not found" while a
previously loaded record is held leaves that record in the `car` state. -/
theorem loadCar_not_found_counterexample :
    (run sampleRuntime init notFoundAfterLoadTrace).error = "Not found" ∧
    (run sampleRuntime init notFoundAfterLoadTrace).loading = false ∧
    (run sampleRuntime init notFoundAfterLoadTrace).car = carWithFourImages ∧
    (run sampleRuntime init notFoundAfterLoadTrace).car ≠ null := by
  have hc : (run sampleRuntime init notFoundAfterLoadTrace).car = carWithFourImages := rfl
  refine ⟨by decide, by decide, hc, ?_⟩
  rw [hc]
  exact fun h => JSValue.noConfusion h

/-- C7, as the code has it: from every page state, a load whose response has
`success: false` and `error: "Not found"` ends with the error state exactly
`"Not found"`, `loading` false, and the page showing `"Not found"` instead of
the detail view; the `car` state is left as it was when the load started (so it
is `null` when no record was held). -/
theorem loadCar_not_found (rt : Runtime) (s : PageState) (ok : Bool)
    (fields : List (String × JSValue))
    (hsuccess : getProp (obj fields) "success" = bool false)
    (herror : getProp (obj fields) "error" = str "Not found") :
    (run rt s [Event.loadStart,
      Event.loadFinish (.ok { ok := ok, json := .ok (obj fields) })]).error = "Not found" ∧
    (run rt s [Event.loadStart,
      Event.loadFinish (.ok { ok := ok, json := .ok (obj fields) })]).loading = false ∧
    (run rt s [Event.loadStart,
      Event.loadFinish (.ok { ok := ok, json := .ok (obj fields) })]).car = s.car ∧
    view (run rt s [Event.loadStart,
      Event.loadFinish (.ok { ok := ok, json := .ok (obj fields) })])
      = View.message "Not found" := by
  have hload := loadCar_envelope_failure rt ok (obj fields)
    (fun h => JSValue.noConfusion h) (fun h => JSValue.noConfusion h)
    (Or.inr (by rw [hsuccess]; rfl))
  have ht : (str "Not found").truthy = true := by decide
  rw [herror, ht] at hload
  have h := step_loadFinish_error rt (step rt s Event.loadStart) _ _ hload
  have hcar : (step rt s Event.loadStart).car = s.car := by
    unfold step
    rw [render_car]
    rfl
  have hrun : run rt s [Event.loadStart,
      Event.loadFinish (.ok { ok := ok, json := .ok (obj fields) })]
      = step rt (step rt s Event.loadStart)
          (Event.loadFinish (.ok { ok := ok, json := .ok (obj fields) })) := rfl
  rw [hrun]
  refine ⟨h.1, h.2.1, h.2.2.trans hcar, ?_⟩
  unfold view
  rw [h.1, h.2.1]
  rfl

/-- Witness for C7: the first load of a page, answered with status 404 and
`{success: false, error: "Not found"}`, leaves `car` at `null`. -/
theorem loadCar_not_found_witness :
    (run sampleRuntime init [Event.loadStart, Event.loadFinish notFoundResponse]).error
      = "Not found" ∧
    (run sampleRuntime init [Event.loadStart, Event.loadFinish notFoundResponse]).car = null :=
  ⟨(loadCar_not_found sampleRuntime init false
      [("success", bool false), ("error", str "Not found")] rfl rfl).1,
    (loadCar_not_found sampleRuntime init false
      [("success", bool false), ("error", str "Not found")] rfl rfl).2.2.1⟩

/-! ## The lightbox index between loads -/

theorem render_lightboxInv (s : PageState) (hinv : LightboxInv s) (hst : LightboxStored s) :
    LightboxInv (render s) := by
  unfold render
  split
  · rename_i hm
    split
    · exact hinv
    · intro i hi
      simp only [Option.some.injEq] at hi
      simp only [Bool.and_eq_true] at hm
      rw [← hi]
      exact hst hm.2
  · intro i hi
    simp at hi

theorem render_lightboxStored (s : PageState) (hst : LightboxStored s) :
    LightboxStored (render s) := by
  unfold LightboxStored
  rw [render_lightbox, render_car]
  exact hst

theorem handle_lightbox_invs (rt : Runtime) (s : PageState) (e : Event)
    (he : isLoadFinish e = false) (hg : GalleryInv s) (hinv : LightboxInv s)
    (hst : LightboxStored s) :
    LightboxInv (handle rt s e) ∧ LightboxStored (handle rt s e) := by
  cases e with
  | loadFinish fetched => simp [isLoadFinish] at he
  | loadStart => exact ⟨hinv, hst⟩
  | resetEffect =>
    simp only [handle]
    split
    · exact ⟨hinv, hst⟩
    · exact ⟨hinv, hst⟩
  | sliderPrev =>
    simp only [handle]
    split
    · exact ⟨hinv, hst⟩
    · exact ⟨hinv, hst⟩
  | sliderNext =>
    simp only [handle]
    split
    · exact ⟨hinv, hst⟩
    · exact ⟨hinv, hst⟩
  | selectThumbnail i =>
    simp only [handle]
    split
    · exact ⟨hinv, hst⟩
    · exact ⟨hinv, hst⟩
  | openLightbox =>
    simp only [handle]
    split
    · exact ⟨hinv, fun _ => hg⟩
    · exact ⟨hinv, hst⟩
  | lightboxPrev =>
    simp only [handle]
    split
    · rename_i i hi
      split
      · refine ⟨?_, hst⟩
        intro j hj
        simp only [Option.some.injEq] at hj
        rw [← hj]
        exact prev_range _ _ (hinv i hi).1 (hinv i hi).2
      · exact ⟨hinv, hst⟩
    · exact ⟨hinv, hst⟩
  | lightboxNext =>
    simp only [handle]
    split
    · rename_i i hi
      split
      · refine ⟨?_, hst⟩
        intro j hj
        simp only [Option.some.injEq] at hj
        rw [← hj]
        exact next_range _ _ (hinv i hi).1 (hinv i hi).2
      · exact ⟨hinv, hst⟩
    · exact ⟨hinv, hst⟩
  | lightboxClose =>
    simp only [handle]
    split
    · refine ⟨hinv, ?_⟩
      intro ho
      exact Bool.noConfusion ho
    · exact ⟨hinv, hst⟩
  | keydown key =>
    simp only [handle]
    split
    · rename_i i hi
      split
      · refine ⟨hinv, ?_⟩
        intro ho
        exact Bool.noConfusion ho
      · split
        · refine ⟨?_, hst⟩
          intro j hj
          simp only [Option.some.injEq] at hj
          rw [← hj]
          exact next_range _ _ (hinv i hi).1 (hinv i hi).2
        · split
          · refine ⟨?_, hst⟩
            intro j hj
            simp only [Option.some.injEq] at hj
            rw [← hj]
            exact prev_range _ _ (hinv i hi).1 (hinv i hi).2
          · exact ⟨hinv, hst⟩
    · exact ⟨hinv, hst⟩

/-- Between loads the lightbox index stays valid: every event other than the
completion of a load preserves the validity of the gallery index, of the index
a mounted lightbox displays, and of the index stored in the `lightbox` state. -/
theorem lightbox_index_valid_without_reload (rt : Runtime) (s : PageState) (e : Event)
    (he : isLoadFinish e = false) (hg : GalleryInv s) (hinv : LightboxInv s)
    (hst : LightboxStored s) :
    GalleryInv (step rt s e) ∧ LightboxInv (step rt s e) ∧ LightboxStored (step rt s e) := by
  obtain ⟨h1, h2⟩ := handle_lightbox_invs rt s e he hg hinv hst
  exact ⟨step_galleryInv rt s e he hg, render_lightboxInv _ h1 h2, render_lightboxStored _ h2⟩

end CarDetails
